import Mathlib

/-!
# Verification of the OutboundIQ JS SDK core (tracking client, fetch interceptor, helpers)

Shallow embedding of the queueing/batching client (`OutboundIQClient`), the
fetch interceptor (`patchFetch` / `unpatchFetch` / `patchedFetch`) and the
header-sanitisation helpers, with theorems checking the natural-language
specification against the code.
-/

namespace OutboundIQ

/-- Does `pat` occur as a contiguous block at the very start of `l`? -/
def matchesHere (pat l : List Char) : Bool :=
  match pat, l with
  | [], _ => true
  | _ :: _, [] => false
  | a :: as, b :: bs => a == b && matchesHere as bs

/-- Does `pat` occur as a contiguous block anywhere in `l`? -/
def occursIn (pat l : List Char) : Bool :=
  match l with
  | [] => matchesHere pat []
  | _ :: bs => matchesHere pat l || occursIn pat bs

/-- JS `s.includes(sub)`: `sub` occurs contiguously inside `s`. -/
def jsIncludes (s sub : String) : Bool :=
  occursIn sub.data s.data

/-- `SENSITIVE_HEADERS` from `types.ts`: fragments of header names whose
values are redacted. -/
def SENSITIVE_HEADERS : List String :=
  ["authorization", "x-api-key", "api-key", "apikey", "x-auth-token",
   "cookie", "set-cookie", "x-csrf-token", "x-xsrf-token"]

/-- JS `key.toLowerCase()` (ASCII range, which covers header names). -/
def jsToLower (s : String) : String :=
  ⟨s.data.map Char.toLower⟩

/-- `SENSITIVE_HEADERS.some (h => key.toLowerCase().includes(h))` for a key. -/
def isSensitiveKey (key : String) : Bool :=
  SENSITIVE_HEADERS.any (fun h => jsIncludes (jsToLower key) h)

/-- `sanitizeHeaders` from `helpers.ts`: iterate over the entries, redacting the
value whenever the lowercased key contains a sensitive fragment.  Headers are
modelled as an ordered association list (the order of `Object.entries`). -/
def sanitizeHeaders (hs : List (String × String)) : List (String × String) :=
  hs.foldl
    (fun result kv =>
      if isSensitiveKey kv.1 then
        result ++ [(kv.1, "[REDACTED]")]
      else
        result ++ [(kv.1, kv.2)])
    []

theorem sanitizeHeaders_foldl_append (hs : List (String × String))
    (acc : List (String × String)) :
    hs.foldl
      (fun result kv =>
        if isSensitiveKey kv.1 then
          result ++ [(kv.1, "[REDACTED]")]
        else
          result ++ [(kv.1, kv.2)]) acc
    = acc ++ hs.map (fun kv => (kv.1, if isSensitiveKey kv.1 then "[REDACTED]" else kv.2)) := by
  induction hs generalizing acc with
  | nil => simp
  | cons kv t ih =>
    rw [List.foldl_cons, ih]
    by_cases h : isSensitiveKey kv.1
    · simp [h, List.append_assoc]
    · simp [h, List.append_assoc]

/-- C8: `sanitizeHeaders` keeps every key, redacts exactly the values whose key
case-insensitively contains a sensitive fragment, passes every other value
through unchanged, and on the concrete example
`{Authorization: 'Bearer abc', 'X-Foo': 'bar'}` yields
`{Authorization: '[REDACTED]', 'X-Foo': 'bar'}`. -/
theorem sanitizeHeaders_redacts_sensitive (hs : List (String × String)) :
    sanitizeHeaders hs
      = hs.map (fun kv => (kv.1, if isSensitiveKey kv.1 then "[REDACTED]" else kv.2))
    ∧ sanitizeHeaders [("Authorization", "Bearer abc"), ("X-Foo", "bar")]
      = [("Authorization", "[REDACTED]"), ("X-Foo", "bar")] := by
  constructor
  · simpa using sanitizeHeaders_foldl_append hs []
  · decide

/-! ## Data model: tracked calls and the client (`OutboundIQClient.ts`) -/

/-- Caller-supplied identity/correlation metadata (`UserContext`), abstracted
to an opaque token with decidable equality. -/
structure UserContext where
  data : String
deriving DecidableEq

/-- A JS optional-and-nullable field value: absent (`undefined`), `null`, or a
value. -/
inductive JsOpt (α : Type) where
  | undef
  | null
  | val (a : α)
deriving DecidableEq

/-- JS `x ?? y` with a `JsOpt` left operand: both `null` and `undefined` fall
through to `y`. -/
def JsOpt.coalesce {α : Type} (x : JsOpt α) (y : Option α) : Option α :=
  match x with
  | .val a => some a
  | _ => y

/-- An ignore pattern: a literal substring or a RegExp (abstracted to the
predicate its `test` method computes). -/
inductive IgnorePattern where
  | lit (s : String)
  | regex (test : String → Bool)

/-- `shouldIgnore` from `helpers.ts`: first matching pattern wins. -/
def shouldIgnore (url : String) (patterns : List IgnorePattern) : Bool :=
  patterns.any fun p =>
    match p with
    | .lit s => jsIncludes url s
    | .regex t => t url

/-- A completed `ApiCall` record as enqueued by the client (`types.ts`). -/
structure ApiCall where
  id : String
  method : String
  url : String
  statusCode : Nat
  duration : Nat
  requestHeaders : Option (List (String × String)) := none
  responseHeaders : Option (List (String × String)) := none
  requestBody : Option String := none
  responseBody : Option String := none
  requestSize : Option Nat := none
  responseSize : Option Nat := none
  userContext : Option UserContext := none
  timestamp : String
  error : Option String := none
deriving DecidableEq

/-- The argument of `track()`:
`Omit<ApiCall, 'id' | 'timestamp' | 'userContext'> & { userContext?: UserContext | null }`. -/
structure TrackInput where
  method : String
  url : String
  statusCode : Nat
  duration : Nat
  requestHeaders : Option (List (String × String)) := none
  responseHeaders : Option (List (String × String)) := none
  requestBody : Option String := none
  responseBody : Option String := none
  requestSize : Option Nat := none
  responseSize : Option Nat := none
  userContext : JsOpt UserContext := .undef
  error : Option String := none
deriving DecidableEq

/-- The `OutboundIQConfig` options object (all fields but `apiKey` optional). -/
structure OutboundIQConfig where
  apiKey : String
  endpoint : Option String := none
  debug : Option Bool := none
  batchSize : Option Nat := none
  flushInterval : Option Nat := none
  timeout : Option Nat := none
  ignorePatterns : Option (List IgnorePattern) := none
  autoTrack : Option Bool := none

/-- `InternalConfig`: all fields resolved. -/
structure InternalConfig where
  apiKey : String
  endpoint : String
  debug : Bool
  batchSize : Nat
  flushInterval : Nat
  timeout : Nat
  ignorePatterns : List IgnorePattern
  autoTrack : Bool

/-- Default collector endpoint used by the constructor. -/
def DEFAULT_ENDPOINT : String := "https://agent.outboundiq.dev/api/metric"

/-- The constructor's defaults merge (`config.x ?? default`). -/
def resolveConfig (c : OutboundIQConfig) : InternalConfig :=
  { endpoint := c.endpoint.getD DEFAULT_ENDPOINT
    debug := c.debug.getD false
    batchSize := c.batchSize.getD 10
    flushInterval := c.flushInterval.getD 5000
    timeout := c.timeout.getD 5000
    ignorePatterns := c.ignorePatterns.getD []
    autoTrack := c.autoTrack.getD true
    apiKey := c.apiKey }

/-- Runtime class detected once at construction. -/
inductive Runtime where
  | node
  | edge
  | browser
deriving DecidableEq

/-- Which code path started an in-flight `sendBatch`. -/
inductive SendKind where
  | flushSend
  | shutdownSend
deriving DecidableEq

/-- An in-flight `sendBatch` operation together with its batch. -/
structure Flight where
  kind : SendKind
  batch : List ApiCall

/-- The mutable state of one `OutboundIQClient` instance, together with the
multiset (list) of currently in-flight `sendBatch` operations. -/
structure ClientState where
  config : InternalConfig
  runtime : Runtime
  queue : List ApiCall
  isFlushing : Bool
  timerRunning : Bool
  currentUserContext : Option UserContext
  flights : List Flight

/-- The constructor: merge defaults, detect runtime, start the flush timer
(except on edge runtimes). -/
def mkClient (c : OutboundIQConfig) (rt : Runtime) : ClientState :=
  { config := resolveConfig c
    runtime := rt
    queue := []
    isFlushing := false
    timerRunning := rt != Runtime.edge
    currentUserContext := none
    flights := [] }

/-- `setUserContext`. -/
def setUserContext (s : ClientState) (ctx : Option UserContext) : ClientState :=
  { s with currentUserContext := ctx }

/-- `track()`'s self-traffic filter:
`call.url.includes('outboundiq.io') || call.url.includes('outboundiq.test')`. -/
def trackSelfFilter (url : String) : Bool :=
  jsIncludes url "outboundiq.io" || jsIncludes url "outboundiq.test"

/-- Completion of an accepted record: generated id, creation timestamp, and
`userContext: call.userContext ?? this.currentUserContext`. -/
def completeCall (inp : TrackInput) (newId newTs : String)
    (ambient : Option UserContext) : ApiCall :=
  { id := newId
    method := inp.method
    url := inp.url
    statusCode := inp.statusCode
    duration := inp.duration
    requestHeaders := inp.requestHeaders
    responseHeaders := inp.responseHeaders
    requestBody := inp.requestBody
    responseBody := inp.responseBody
    requestSize := inp.requestSize
    responseSize := inp.responseSize
    userContext := inp.userContext.coalesce ambient
    timestamp := newTs
    error := inp.error }

/-- The synchronous part of `flush()`: no-op when the queue is empty or a
flush is in progress, otherwise atomically drain the queue into a new
in-flight `sendBatch` and set the guard. -/
def flushStart (s : ClientState) : ClientState :=
  if s.queue.length = 0 || s.isFlushing then s
  else
    { s with
      queue := []
      isFlushing := true
      flights := s.flights ++ [⟨SendKind.flushSend, s.queue⟩] }

/-- `track()`: drop ignored and self-traffic URLs, otherwise complete the
record, append it, and auto-flush once the queue length reaches `batchSize`.
`newId`/`newTs` stand for the environment-generated id and timestamp. -/
def trackStep (s : ClientState) (inp : TrackInput) (newId newTs : String) :
    ClientState :=
  if shouldIgnore inp.url s.config.ignorePatterns then s
  else if trackSelfFilter inp.url then s
  else
    let s1 :=
      { s with queue := s.queue ++ [completeCall inp newId newTs s.currentUserContext] }
    if s1.config.batchSize ≤ s1.queue.length then flushStart s1 else s1

/-- The synchronous part of `shutdown()`: stop the timer and, when the queue
is non-empty, drain it into one final awaited `sendBatch` (note: without
consulting or setting the `isFlushing` guard). -/
def shutdownStart (s : ClientState) : ClientState :=
  let s1 := { s with timerRunning := false }
  if s1.queue.length = 0 then s1
  else { s1 with queue := [], flights := s1.flights ++ [⟨SendKind.shutdownSend, s1.queue⟩] }

/-- Completion of the `i`-th in-flight `sendBatch` with outcome `ok`.  A
flush-initiated send runs its `.catch` re-queue (first 10 records, only while
the queue holds fewer than 100 entries) on failure and always clears the
guard in `.finally`; a shutdown-initiated send only logs failures. -/
def completeSend (s : ClientState) (i : Nat) (ok : Bool) : ClientState :=
  match s.flights[i]? with
  | none => s
  | some f =>
    let s1 := { s with flights := s.flights.eraseIdx i }
    match f.kind with
    | .shutdownSend => s1
    | .flushSend =>
      if ok then { s1 with isFlushing := false }
      else
        { s1 with
          isFlushing := false
          queue := if s.queue.length < 100 then f.batch.take 10 ++ s.queue else s.queue }

/-- Every record currently owned by the client: queued or inside an in-flight
batch. -/
def allRecords (s : ClientState) : List ApiCall :=
  s.queue ++ (s.flights.map Flight.batch).flatten

/-- One asynchronous-interleaving step of the client: a `flush()` call (from
the timer, `track()`'s auto-flush, or an explicit call), a `shutdown()` call,
or the completion (success or failure) of an in-flight `sendBatch`. -/
inductive Step : ClientState → ClientState → Prop where
  | flush (s : ClientState) : Step s (flushStart s)
  | shutdown (s : ClientState) : Step s (shutdownStart s)
  | complete (s : ClientState) (i : Nat) (ok : Bool) : Step s (completeSend s i ok)

/-- Reachability under interleavings of `flush()`/`shutdown()` calls and send
completions. -/
def Reachable : ClientState → ClientState → Prop :=
  Relation.ReflTransGen Step

/-! ## Single-flight invariant (C1) -/

/-- Inductive invariant for the flush/shutdown/completion dynamics: at most
one send is in flight, an in-flight send implies a drained queue, and the
`isFlushing` guard is set exactly while a flush-initiated send is in
flight. -/
structure Inv (s : ClientState) : Prop where
  atMostOne : s.flights.length ≤ 1
  queueDrained : s.flights ≠ [] → s.queue = []
  guard : s.isFlushing = true ↔ ∃ f ∈ s.flights, f.kind = SendKind.flushSend

theorem length_le_one_getElem? {α : Type} {l : List α} {i : Nat} {a : α}
    (hlen : l.length ≤ 1) (h : l[i]? = some a) : l = [a] ∧ i = 0 := by
  match l, i with
  | [], i => simp at h
  | [x], 0 => simp at h; simp [h]
  | [x], n + 1 => simp at h
  | x :: y :: t, i => simp at hlen

theorem inv_flushStart {s : ClientState} (hs : Inv s) : Inv (flushStart s) := by
  unfold flushStart
  by_cases h : (decide (s.queue.length = 0) || s.isFlushing) = true
  · rw [if_pos h]; exact hs
  · rw [if_neg h]
    simp only [Bool.or_eq_true, decide_eq_true_eq, not_or, Bool.not_eq_true] at h
    obtain ⟨hq, hf⟩ := h
    have hfl : s.flights = [] := by
      by_contra hne
      exact hq (by rw [hs.queueDrained hne]; rfl)
    refine ⟨by simp [hfl], by simp, by simp [hfl]⟩

theorem inv_shutdownStart {s : ClientState} (hs : Inv s) : Inv (shutdownStart s) := by
  unfold shutdownStart
  by_cases h : s.queue.length = 0
  · simp only [h, if_pos]
    exact ⟨hs.atMostOne, hs.queueDrained, hs.guard⟩
  · simp only [h, if_neg, if_false]
    have hq : s.queue ≠ [] := by
      intro hnil; exact h (by rw [hnil]; rfl)
    have hfl : s.flights = [] := by
      by_contra hne
      exact hq (hs.queueDrained hne)
    have hf : s.isFlushing = false := by
      cases hb : s.isFlushing with
      | false => rfl
      | true =>
        obtain ⟨f, hmem, _⟩ := hs.guard.mp hb
        rw [hfl] at hmem
        simp at hmem
    refine ⟨by simp [hfl], by simp, by simp [hfl, hf]⟩

theorem inv_completeSend {s : ClientState} (hs : Inv s) (i : Nat) (ok : Bool) :
    Inv (completeSend s i ok) := by
  unfold completeSend
  cases hget : s.flights[i]? with
  | none => exact hs
  | some f =>
    obtain ⟨hfl, hi⟩ := length_le_one_getElem? hs.atMostOne hget
    subst hi
    have herase : s.flights.eraseIdx 0 = [] := by rw [hfl]; rfl
    cases hk : f.kind with
    | shutdownSend =>
      have hf : s.isFlushing = false := by
        cases hb : s.isFlushing with
        | false => rfl
        | true =>
          obtain ⟨f', hmem, hk'⟩ := hs.guard.mp hb
          rw [hfl] at hmem
          simp only [List.mem_singleton] at hmem
          subst hmem
          rw [hk] at hk'
          exact absurd hk' (by simp)
      exact ⟨by simp [herase, hk], by simp [herase, hk], by simp [herase, hk, hf]⟩
    | flushSend =>
      cases ok with
      | true => exact ⟨by simp [herase, hk], by simp [herase, hk], by simp [herase, hk]⟩
      | false => exact ⟨by simp [herase, hk], by simp [herase, hk], by simp [herase, hk]⟩

theorem inv_step {s s' : ClientState} (hs : Inv s) (h : Step s s') : Inv s' := by
  cases h with
  | flush => exact inv_flushStart hs
  | shutdown => exact inv_shutdownStart hs
  | complete i ok => exact inv_completeSend hs i ok

theorem inv_reachable {s0 s : ClientState} (h0 : Inv s0)
    (h : Relation.ReflTransGen Step s0 s) : Inv s := by
  induction h with
  | refl => exact h0
  | tail _ hstep ih => exact inv_step ih hstep

/-- C1: from any quiescent client state (no send in flight, guard clear),
under every interleaving of `flush()` and `shutdown()` steps and send
completions, at most one `sendBatch` is ever in flight; `flush()` is a no-op
on an empty queue or while a flush is in progress; and the in-progress guard
is set exactly while a flush-initiated send is in flight (so it is cleared
only on completion of that send). -/
theorem sendBatch_single_flight (s0 s : ClientState)
    (hguard : s0.isFlushing = false) (hfl : s0.flights = [])
    (h : Reachable s0 s) :
    s.flights.length ≤ 1
    ∧ (s.queue = [] ∨ s.isFlushing = true → flushStart s = s)
    ∧ (s.isFlushing = true ↔ ∃ f ∈ s.flights, f.kind = SendKind.flushSend) := by
  have h0 : Inv s0 := ⟨by simp [hfl], fun hne => absurd hfl hne, by simp [hfl, hguard]⟩
  have hI := inv_reachable h0 h
  refine ⟨hI.atMostOne, ?_, hI.guard⟩
  rintro (hq | hf) <;> unfold flushStart
  · simp [hq]
  · simp [hf]

/-- Witness for C1 at a freshly constructed client. -/
theorem sendBatch_single_flight_w :
    (mkClient { apiKey := "k" } Runtime.node).flights.length ≤ 1
    ∧ ((mkClient { apiKey := "k" } Runtime.node).queue = []
        ∨ (mkClient { apiKey := "k" } Runtime.node).isFlushing = true
        → flushStart (mkClient { apiKey := "k" } Runtime.node)
            = mkClient { apiKey := "k" } Runtime.node)
    ∧ ((mkClient { apiKey := "k" } Runtime.node).isFlushing = true
        ↔ ∃ f ∈ (mkClient { apiKey := "k" } Runtime.node).flights,
            f.kind = SendKind.flushSend) :=
  sendBatch_single_flight _ _ rfl rfl Relation.ReflTransGen.refl

/-! ## Queue cap under failed sends (C2) and flush counting (C6) -/

/-- `track()` together with the number of `flush()` invocations it makes
(0 or 1, from the auto-flush branch). -/
def trackStepC (s : ClientState) (inp : TrackInput) (newId newTs : String) :
    ClientState × Nat :=
  if shouldIgnore inp.url s.config.ignorePatterns then (s, 0)
  else if trackSelfFilter inp.url then (s, 0)
  else
    let s1 :=
      { s with queue := s.queue ++ [completeCall inp newId newTs s.currentUserContext] }
    if s1.config.batchSize ≤ s1.queue.length then (flushStart s1, 1) else (s1, 0)

theorem trackStepC_fst (s : ClientState) (inp : TrackInput) (newId newTs : String) :
    (trackStepC s inp newId newTs).1 = trackStep s inp newId newTs := by
  unfold trackStepC trackStep
  by_cases h1 : shouldIgnore inp.url s.config.ignorePatterns
  · simp [h1]
  · by_cases h2 : trackSelfFilter inp.url
    · simp [h1, h2]
    · by_cases h3 : s.config.batchSize ≤ s.queue.length + 1 <;>
        simp [h1, h2, h3]

/-- Run a sequence of `track()` calls (each entry: input, generated id,
generated timestamp), returning the final state and the total number of
`flush()` invocations. -/
def runTracks : ClientState → List (TrackInput × String × String) → ClientState × Nat
  | s, [] => (s, 0)
  | s, a :: rest =>
    let p := trackStepC s a.1 a.2.1 a.2.2
    let r := runTracks p.1 rest
    (r.1, p.2 + r.2)

/-- A generic accepted call record used in concrete traces. -/
def plainInput : TrackInput :=
  { method := "GET", url := "x", statusCode := 200, duration := 0 }

/-- C2 counterexample trace: 10 tracks fill a default-sized batch and start a
send; 99 more tracks arrive while it is in flight; the send then fails and
re-queues 10 records because the queue holds 99 < 100 entries — the queue
ends at 109 entries, above the claimed cap of 100. -/
def cexC2State : ClientState :=
  completeSend
    (runTracks (mkClient { apiKey := "k" } Runtime.node)
      (List.replicate 109 (plainInput, "i", "t"))).1
    0 false

set_option maxRecDepth 100000 in
/-- C2 counterexample: after one failed send of a batch of size 10 with 99
concurrently tracked entries, the queue length is 109, strictly above the
claimed cap of 100. -/
theorem queue_cap_exceeded_cex :
    cexC2State.queue.length = 109 ∧ 100 < 109 := by
  constructor
  · decide
  · decide

/-- C2 amended: one completed send never raises the queue length above
`max (previous length) 109`: the failure re-queue adds at most the first 10
records of the batch, and only fires while the queue holds fewer than 100
entries; when the queue already holds at least 100 entries the failed batch
is dropped entirely and the queue is unchanged. -/
theorem requeue_cap_bound (s : ClientState) (i : Nat) (ok : Bool) :
    (completeSend s i ok).queue.length ≤ max s.queue.length 109
    ∧ (100 ≤ s.queue.length → (completeSend s i ok).queue = s.queue) := by
  unfold completeSend
  cases hget : s.flights[i]? with
  | none => exact ⟨le_max_left _ _, fun _ => rfl⟩
  | some f =>
    cases hk : f.kind with
    | shutdownSend => simp [hk]
    | flushSend =>
      cases ok with
      | true => simp [hk]
      | false =>
        by_cases hlen : s.queue.length < 100
        · refine ⟨?_, fun h100 => absurd hlen (by omega)⟩
          simp only [hk, Bool.false_eq_true, if_false, if_pos hlen,
            List.length_append, List.length_take]
          omega
        · simp [hk, hlen]

/-! ## Self-traffic filtering in `track()` (C3) -/

/-- A record destined for the default collector endpoint. -/
def collectorInput : TrackInput :=
  { method := "POST", url := DEFAULT_ENDPOINT, statusCode := 200, duration := 0 }

/-- C3 counterexample: `track()` of a record whose URL is the configured
collector endpoint's default (`https://agent.outboundiq.dev/api/metric`) is
NOT silently dropped — the queue grows from 0 to 1, because the filter in
`track()` only checks `outboundiq.io` and `outboundiq.test`. -/
theorem track_collector_url_not_dropped_cex :
    (mkClient { apiKey := "k" } Runtime.node).queue.length = 0
    ∧ (trackStep (mkClient { apiKey := "k" } Runtime.node)
        collectorInput "i" "t").queue.length = 1 := by
  constructor
  · decide
  · decide

/-- C3 amended: `track()`'s self-traffic filter drops exactly the records
whose URL contains `outboundiq.io` or `outboundiq.test` (leaving the whole
client state unchanged); the default collector endpoint
(`agent.outboundiq.dev`) does not match that filter. -/
theorem track_self_filter_drops (s : ClientState) (inp : TrackInput)
    (newId newTs : String) (h : trackSelfFilter inp.url = true) :
    trackStep s inp newId newTs = s
    ∧ trackSelfFilter DEFAULT_ENDPOINT = false := by
  constructor
  · unfold trackStep
    by_cases hig : shouldIgnore inp.url s.config.ignorePatterns <;> simp [hig, h]
  · decide

/-- Witness for the amended C3 at a URL on the `outboundiq.io` domain. -/
theorem track_self_filter_drops_w :
    trackStep (mkClient { apiKey := "k" } Runtime.node)
      { method := "GET", url := "https://api.outboundiq.io/v1", statusCode := 200,
        duration := 0 } "i" "t"
      = mkClient { apiKey := "k" } Runtime.node
    ∧ trackSelfFilter DEFAULT_ENDPOINT = false :=
  track_self_filter_drops _ _ _ _ (by decide)

/-! ## One flush per full batch (C6) -/

theorem runTracks_count_one (entries : List (TrackInput × String × String)) :
    ∀ s : ClientState,
      (∀ e ∈ entries, shouldIgnore e.1.url s.config.ignorePatterns = false
          ∧ trackSelfFilter e.1.url = false) →
      entries ≠ [] →
      s.queue.length + entries.length = s.config.batchSize →
      (runTracks s entries).2 = 1 := by
  induction entries with
  | nil => intro s _ hne _; exact absurd rfl hne
  | cons e r ih =>
    intro s hacc _ hsum
    obtain ⟨hig, hself⟩ := hacc e (List.mem_cons_self e r)
    simp only [runTracks, trackStepC, hig, hself, Bool.false_eq_true, if_false,
      List.length_append, List.length_cons, List.length_singleton, List.length_nil,
      Nat.zero_add]
    cases r with
    | nil =>
      have hB : s.config.batchSize ≤ s.queue.length + 1 := by
        simp only [List.length_cons, List.length_nil] at hsum
        omega
      simp [hB, runTracks]
    | cons e2 r2 =>
      have hB : ¬ s.config.batchSize ≤ s.queue.length + 1 := by
        simp only [List.length_cons] at hsum
        omega
      rw [if_neg hB]
      have := ih { s with queue := s.queue ++ [completeCall e.1 e.2.1 e.2.2 s.currentUserContext] }
        (by
          intro e' he'
          exact hacc e' (List.mem_cons_of_mem _ he'))
        (by simp)
        (by
          simp only [List.length_append, List.length_singleton, List.length_cons,
            List.length_nil, Nat.zero_add]
          simp only [List.length_cons] at hsum
          omega)
      simpa using this

/-- C6: starting from an empty queue with no flush in progress, enqueuing
exactly `batchSize` accepted calls via `track()` invokes `flush()` exactly
once — on the `batchSize`-th call, when the post-enqueue queue length
reaches the threshold — not once per call. -/
theorem batch_fill_single_flush (s : ClientState)
    (entries : List (TrackInput × String × String))
    (hq : s.queue = [])
    (hB : 1 ≤ s.config.batchSize)
    (hlen : entries.length = s.config.batchSize)
    (hacc : ∀ e ∈ entries, shouldIgnore e.1.url s.config.ignorePatterns = false
        ∧ trackSelfFilter e.1.url = false) :
    (runTracks s entries).2 = 1 := by
  apply runTracks_count_one entries s hacc
  · intro hnil
    rw [hnil] at hlen
    simp at hlen
    omega
  · rw [hq, hlen]
    simp

/-- Witness for C6: a batch size of 2 and two accepted calls produce exactly
one `flush()` invocation. -/
theorem batch_fill_single_flush_w :
    (runTracks (mkClient { apiKey := "k", batchSize := some 2 } Runtime.node)
      [(plainInput, "i1", "t1"), (plainInput, "i2", "t2")]).2 = 1 :=
  batch_fill_single_flush _ _ rfl (by decide) (by decide) (by decide)

/-! ## Failed-send re-queue drops all but the first 10 records (C4) -/

theorem completeSend_shutdown_eq (s : ClientState) (i : Nat) (ok : Bool)
    (b : List ApiCall)
    (hget : s.flights[i]? = some ⟨SendKind.shutdownSend, b⟩) :
    completeSend s i ok = { s with flights := s.flights.eraseIdx i } := by
  unfold completeSend
  rw [hget]

theorem completeSend_flushOk_eq (s : ClientState) (i : Nat) (b : List ApiCall)
    (hget : s.flights[i]? = some ⟨SendKind.flushSend, b⟩) :
    completeSend s i true
      = { s with flights := s.flights.eraseIdx i, isFlushing := false } := by
  unfold completeSend
  rw [hget]
  rfl

theorem completeSend_flushFail_eq (s : ClientState) (i : Nat) (b : List ApiCall)
    (hget : s.flights[i]? = some ⟨SendKind.flushSend, b⟩) :
    completeSend s i false
      = { s with
          flights := s.flights.eraseIdx i
          isFlushing := false
          queue := if s.queue.length < 100 then b.take 10 ++ s.queue else s.queue } := by
  unfold completeSend
  rw [hget]
  rfl

theorem mem_flatten_map_of_subset {l1 l2 : List Flight}
    (h : ∀ g ∈ l1, g ∈ l2) {c : ApiCall}
    (hc : c ∈ (l1.map Flight.batch).flatten) : c ∈ (l2.map Flight.batch).flatten := by
  rw [List.mem_flatten] at hc ⊢
  obtain ⟨bt, hb, hcb⟩ := hc
  rw [List.mem_map] at hb
  obtain ⟨g, hg, rfl⟩ := hb
  exact ⟨g.batch, List.mem_map.mpr ⟨g, h g hg, rfl⟩, hcb⟩

theorem mem_allRecords_of_flight {s : ClientState} {g : Flight}
    (hg : g ∈ s.flights) {c : ApiCall} (hc : c ∈ g.batch) : c ∈ allRecords s := by
  unfold allRecords
  refine List.mem_append.mpr (Or.inr ?_)
  rw [List.mem_flatten]
  exact ⟨g.batch, List.mem_map.mpr ⟨g, hg, rfl⟩, hc⟩

theorem allRecords_flushStart_mem {s : ClientState} {c : ApiCall} :
    c ∈ allRecords (flushStart s) ↔ c ∈ allRecords s := by
  unfold flushStart
  by_cases h : (decide (s.queue.length = 0) || s.isFlushing) = true
  · rw [if_pos h]
  · rw [if_neg h]
    unfold allRecords
    constructor
    · intro hc
      rcases List.mem_append.mp hc with h1 | h2
      · exact absurd h1 (List.not_mem_nil c)
      · rw [List.map_append, List.flatten_append] at h2
        rcases List.mem_append.mp h2 with h21 | h22
        · exact List.mem_append.mpr (Or.inr h21)
        · simp only [List.map_cons, List.map_nil, List.flatten_cons, List.flatten_nil,
            List.append_nil] at h22
          exact List.mem_append.mpr (Or.inl h22)
    · intro hc
      rcases List.mem_append.mp hc with h1 | h2
      · refine List.mem_append.mpr (Or.inr ?_)
        rw [List.map_append, List.flatten_append]
        refine List.mem_append.mpr (Or.inr ?_)
        simp only [List.map_cons, List.map_nil, List.flatten_cons, List.flatten_nil,
          List.append_nil]
        exact h1
      · refine List.mem_append.mpr (Or.inr ?_)
        rw [List.map_append, List.flatten_append]
        exact List.mem_append.mpr (Or.inl h2)

theorem allRecords_shutdownStart_mem {s : ClientState} {c : ApiCall} :
    c ∈ allRecords (shutdownStart s) ↔ c ∈ allRecords s := by
  unfold shutdownStart
  by_cases h : s.queue.length = 0
  · rw [if_pos h]
    exact Iff.rfl
  · rw [if_neg h]
    unfold allRecords
    constructor
    · intro hc
      rcases List.mem_append.mp hc with h1 | h2
      · exact absurd h1 (List.not_mem_nil c)
      · rw [List.map_append, List.flatten_append] at h2
        rcases List.mem_append.mp h2 with h21 | h22
        · exact List.mem_append.mpr (Or.inr h21)
        · simp only [List.map_cons, List.map_nil, List.flatten_cons, List.flatten_nil,
            List.append_nil] at h22
          exact List.mem_append.mpr (Or.inl h22)
    · intro hc
      rcases List.mem_append.mp hc with h1 | h2
      · refine List.mem_append.mpr (Or.inr ?_)
        rw [List.map_append, List.flatten_append]
        refine List.mem_append.mpr (Or.inr ?_)
        simp only [List.map_cons, List.map_nil, List.flatten_cons, List.flatten_nil,
          List.append_nil]
        exact h1
      · refine List.mem_append.mpr (Or.inr ?_)
        rw [List.map_append, List.flatten_append]
        exact List.mem_append.mpr (Or.inl h2)

theorem allRecords_completeSend_subset {s : ClientState} (i : Nat) (ok : Bool) :
    ∀ c, c ∈ allRecords (completeSend s i ok) → c ∈ allRecords s := by
  intro c hc
  cases hget : s.flights[i]? with
  | none =>
    unfold completeSend at hc
    rw [hget] at hc
    exact hc
  | some f =>
    obtain ⟨kind, b⟩ := f
    have hfmem : (⟨kind, b⟩ : Flight) ∈ s.flights := List.getElem?_mem hget
    have hsub : ∀ g ∈ s.flights.eraseIdx i, g ∈ s.flights :=
      fun g hg => List.eraseIdx_subset s.flights i hg
    cases kind with
    | shutdownSend =>
      rw [completeSend_shutdown_eq s i ok b hget] at hc
      unfold allRecords at hc ⊢
      rcases List.mem_append.mp hc with h1 | h2
      · exact List.mem_append.mpr (Or.inl h1)
      · exact List.mem_append.mpr (Or.inr (mem_flatten_map_of_subset hsub h2))
    | flushSend =>
      cases ok with
      | true =>
        rw [completeSend_flushOk_eq s i b hget] at hc
        unfold allRecords at hc ⊢
        rcases List.mem_append.mp hc with h1 | h2
        · exact List.mem_append.mpr (Or.inl h1)
        · exact List.mem_append.mpr (Or.inr (mem_flatten_map_of_subset hsub h2))
      | false =>
        have heq := completeSend_flushFail_eq s i b hget
        by_cases hlen : s.queue.length < 100
        · rw [if_pos hlen] at heq
          rw [heq] at hc
          unfold allRecords at hc ⊢
          rcases List.mem_append.mp hc with h1 | h2
          · rcases List.mem_append.mp h1 with h11 | h12
            · exact mem_allRecords_of_flight hfmem (List.take_subset 10 b h11)
            · exact List.mem_append.mpr (Or.inl h12)
          · exact List.mem_append.mpr (Or.inr (mem_flatten_map_of_subset hsub h2))
        · rw [if_neg hlen] at heq
          rw [heq] at hc
          unfold allRecords at hc ⊢
          rcases List.mem_append.mp hc with h1 | h2
          · exact List.mem_append.mpr (Or.inl h1)
          · exact List.mem_append.mpr (Or.inr (mem_flatten_map_of_subset hsub h2))

theorem allRecords_step_subset {s s' : ClientState} (h : Step s s') :
    ∀ c, c ∈ allRecords s' → c ∈ allRecords s := by
  cases h with
  | flush => exact fun c hc => allRecords_flushStart_mem.mp hc
  | shutdown => exact fun c hc => allRecords_shutdownStart_mem.mp hc
  | complete i ok => exact allRecords_completeSend_subset i ok

theorem allRecords_reachable_subset {s s' : ClientState}
    (h : Relation.ReflTransGen Step s s') :
    ∀ c, c ∈ allRecords s' → c ∈ allRecords s := by
  induction h with
  | refl => exact fun c => id
  | tail _ hstep ih => exact fun c hc => ih c (allRecords_step_subset hstep c hc)

/-- C4: when a flush-initiated send of batch `b` fails while the queue holds
fewer than 100 entries, exactly the first `min 10 |b|` records of `b` are
reinserted at the head of the queue in their original order, and any record
of the dropped remainder that the client does not otherwise hold never
reappears (is never retried) under any further flush/shutdown/completion
steps. -/
theorem flush_failure_requeue_take10 (s : ClientState) (i : Nat) (b : List ApiCall)
    (hget : s.flights[i]? = some ⟨SendKind.flushSend, b⟩)
    (hlen : s.queue.length < 100) :
    (completeSend s i false).queue = b.take 10 ++ s.queue
    ∧ (b.take 10).length = min 10 b.length
    ∧ (∀ c ∈ b.drop 10,
        c ∉ b.take 10 → c ∉ s.queue →
        (∀ g ∈ s.flights.eraseIdx i, c ∉ g.batch) →
        ∀ s', Reachable (completeSend s i false) s' → c ∉ allRecords s') := by
  have heq := completeSend_flushFail_eq s i b hget
  rw [if_pos hlen] at heq
  have hq : (completeSend s i false).queue = b.take 10 ++ s.queue := by rw [heq]
  have hfl : (completeSend s i false).flights = s.flights.eraseIdx i := by rw [heq]
  refine ⟨hq, List.length_take 10 b, ?_⟩
  intro c _ hct hcq hgone s' hreach hmem
  have hmem0 : c ∈ allRecords (completeSend s i false) :=
    allRecords_reachable_subset hreach c hmem
  revert hmem0
  unfold allRecords
  rw [hq, hfl]
  intro hmem0
  rcases List.mem_append.mp hmem0 with h1 | h2
  · rcases List.mem_append.mp h1 with h11 | h12
    · exact hct h11
    · exact hcq h12
  · rw [List.mem_flatten] at h2
    obtain ⟨bt, hb, hcb⟩ := h2
    rw [List.mem_map] at hb
    obtain ⟨g, hg, rfl⟩ := hb
    exact hgone g hg hcb

/-- A batch of 12 identical records held by one failed flush-initiated send,
the concrete instance for C4. -/
def c4state : ClientState :=
  { config := resolveConfig { apiKey := "k" }
    runtime := Runtime.node
    queue := []
    isFlushing := true
    timerRunning := true
    currentUserContext := none
    flights := [⟨SendKind.flushSend,
      List.replicate 12
        { id := "r", method := "GET", url := "x", statusCode := 200,
          duration := 0, timestamp := "t" }⟩] }

/-- Witness for C4: on the 12-record batch, the failed send re-queues exactly
the first 10 records at the head of the (empty) queue. -/
theorem flush_failure_requeue_take10_w :
    (completeSend c4state 0 false).queue
      = (List.replicate 12
          { id := "r", method := "GET", url := "x", statusCode := 200,
            duration := 0, timestamp := "t" : ApiCall }).take 10 ++ c4state.queue :=
  (flush_failure_requeue_take10 c4state 0 _ rfl (by decide)).1


/-! ## Fetch interceptor (`fetch.ts`): rejection path (C5) -/

/-- A JS value thrown by the underlying fetch: an `Error` instance or any
other value (identified by its `String(err)` rendering). -/
inductive JsThrown where
  | errObj (message : String)
  | other (repr : String)
deriving DecidableEq

/-- `(err instanceof Error ? err : new Error(String(err))).message`. -/
def thrownMessage : JsThrown → String
  | .errObj m => m
  | .other r => r

/-- A fetch `Response`, restricted to the fields the interceptor reads.
`bodyText` is the result of `getResponseBody` (clone + text, truncated),
`none` when reading failed. -/
structure FetchResponse where
  status : Nat
  headers : List (String × String)
  bodyText : Option String
deriving DecidableEq

/-- The collector-domain filter in `patchedFetch`:
`url.includes('outboundiq.dev') || url.includes('outboundiq.io') ||
url.includes('outboundiq.test') || url.includes('outboundiq.com')`. -/
def fetchSelfFilter (url : String) : Bool :=
  jsIncludes url "outboundiq.dev" || jsIncludes url "outboundiq.io" ||
  jsIncludes url "outboundiq.test" || jsIncludes url "outboundiq.com"

/-- `safeStringify` from `helpers.ts`, restricted to the `string | null`
values the fetch interceptor passes it: null stays null, long strings are
truncated with the `...[truncated]` marker. -/
def safeStringifyStr (body : Option String) (maxLength : Nat := 10000) :
    Option String :=
  match body with
  | none => none
  | some s =>
    if maxLength < s.length then some (String.mk (s.data.take maxLength) ++ "...[truncated]")
    else some s

/-- `getByteSize`: UTF-8 byte length, 0 for null/empty. -/
def getByteSize (s : Option String) : Nat :=
  match s with
  | none => 0
  | some str => str.utf8ByteSize

/-- A present-or-null JS value as a `JsOpt` (never `undefined`). -/
def optToJsOpt {α : Type} : Option α → JsOpt α
  | some a => .val a
  | none => .null

/-- One invocation of the patched fetch wrapper as a function of its
environment: the resolved URL/method/headers/body, whether `getClient()` is
non-null, the user-context resolver's answer, the measured duration, and the
original fetch's outcome.  Returns the outcome propagated to the caller and
the list of records passed to `track()` (the success-path record is
submitted from the detached background task). -/
def patchedFetch (url method : String) (reqHeaders : List (String × String))
    (reqBody : Option String) (clientPresent : Bool)
    (resolverCtx : Option UserContext) (dur : Nat)
    (origResult : Except JsThrown FetchResponse) :
    Except JsThrown FetchResponse × List TrackInput :=
  if fetchSelfFilter url then (origResult, [])
  else
    match origResult with
    | .error err =>
      (.error err,
        if clientPresent then
          [{ method := method
             url := url
             statusCode := 0
             duration := dur
             requestHeaders := some (sanitizeHeaders reqHeaders)
             requestBody := safeStringifyStr reqBody
             error := some (thrownMessage err)
             userContext := optToJsOpt resolverCtx }]
        else [])
    | .ok resp =>
      (.ok resp,
        if clientPresent then
          [{ method := method
             url := url
             statusCode := resp.status
             duration := dur
             requestHeaders := some (sanitizeHeaders reqHeaders)
             responseHeaders := some (sanitizeHeaders resp.headers)
             requestBody := safeStringifyStr reqBody
             responseBody := safeStringifyStr resp.bodyText
             requestSize := some (getByteSize reqBody)
             responseSize := some (getByteSize resp.bodyText)
             userContext := optToJsOpt resolverCtx }]
        else [])

/-- C5 counterexample: an invocation of the patched fetch whose URL is on the
collector's own domain delegates straight to the original; when that
original call rejects, NO Tracked Call is recorded — not exactly one as
claimed — although the underlying fetch rejected. -/
theorem patchedFetch_reject_self_cex :
    (patchedFetch "https://agent.outboundiq.dev/api/metric" "GET" [] none true
        none 5 (Except.error (JsThrown.errObj "boom"))).2.length = 0
    ∧ (patchedFetch "https://agent.outboundiq.dev/api/metric" "GET" [] none true
        none 5 (Except.error (JsThrown.errObj "boom"))).1
      = Except.error (JsThrown.errObj "boom") := by
  constructor
  · decide
  · rfl

/-- C5 amended: for every invocation of the patched fetch whose URL does not
match the interceptor's collector-domain filter and while a client instance
is initialized, a rejection of the underlying original fetch records exactly
one Tracked Call via `track()`, carrying statusCode 0 and the thrown error's
message, and the original thrown value is re-thrown to the caller
unchanged. -/
theorem patchedFetch_reject_tracks_once (url method : String)
    (reqHeaders : List (String × String)) (reqBody : Option String)
    (resolverCtx : Option UserContext) (dur : Nat) (err : JsThrown)
    (hself : fetchSelfFilter url = false) :
    (patchedFetch url method reqHeaders reqBody true resolverCtx dur
        (Except.error err)).1 = Except.error err
    ∧ (patchedFetch url method reqHeaders reqBody true resolverCtx dur
        (Except.error err)).2.length = 1
    ∧ ∀ t ∈ (patchedFetch url method reqHeaders reqBody true resolverCtx dur
          (Except.error err)).2,
        t.statusCode = 0 ∧ t.error = some (thrownMessage err) ∧ t.url = url := by
  simp [patchedFetch, hself]

/-- Witness for the amended C5 at a non-collector URL with a rejecting
original fetch. -/
theorem patchedFetch_reject_tracks_once_w :
    (patchedFetch "https://example.com/a" "GET" [] none true none 5
        (Except.error (JsThrown.errObj "boom"))).1
      = Except.error (JsThrown.errObj "boom")
    ∧ (patchedFetch "https://example.com/a" "GET" [] none true none 5
        (Except.error (JsThrown.errObj "boom"))).2.length = 1
    ∧ ∀ t ∈ (patchedFetch "https://example.com/a" "GET" [] none true none 5
          (Except.error (JsThrown.errObj "boom"))).2,
        t.statusCode = 0 ∧ t.error = some (thrownMessage (JsThrown.errObj "boom"))
          ∧ t.url = "https://example.com/a" :=
  patchedFetch_reject_tracks_once _ _ _ _ _ _ _ (by decide)

/-! ## Fetch patching is idempotent and exactly restorable (C7) -/

/-- The global fetch slot: the runtime's base fetch, or the interceptor's
wrapper installed around a preserved inner function. -/
inductive FetchFun where
  | base (n : Nat)
  | wrapped (inner : FetchFun)
deriving DecidableEq

/-- The fetch interceptor module's state: the global `fetch` binding, the
preserved `originalFetch`, and the `isPatched` flag. -/
structure FetchModule where
  globalFetch : Option FetchFun
  originalFetch : Option FetchFun
  isPatched : Bool
deriving DecidableEq

/-- `patchFetch()`: a no-op when already patched or when no global fetch
function exists; otherwise preserve the original and install the wrapper. -/
def patchFetch (m : FetchModule) : FetchModule :=
  if m.isPatched then m
  else
    match m.globalFetch with
    | none => m
    | some g =>
      { globalFetch := some (FetchFun.wrapped g)
        originalFetch := some g
        isPatched := true }

/-- `unpatchFetch()`: a no-op when not patched or when no original is saved;
otherwise restore the exact original reference and clear the slot. -/
def unpatchFetch (m : FetchModule) : FetchModule :=
  if !m.isPatched then m
  else
    match m.originalFetch with
    | none => m
    | some g =>
      { globalFetch := some g
        originalFetch := none
        isPatched := false }

/-- C7: from an unpatched module state, calling `patchFetch` twice equals
calling it once (the second call is a no-op) and leaves exactly one wrapper
around the preserved original; a single `unpatchFetch` after the two
`patchFetch` calls restores the exact original module state; and
`unpatchFetch` is a no-op when not patched. -/
theorem patchFetch_once_unpatch_exact (m : FetchModule) (g : FetchFun)
    (hg : m.globalFetch = some g) (hp : m.isPatched = false)
    (ho : m.originalFetch = none) :
    patchFetch (patchFetch m) = patchFetch m
    ∧ (patchFetch m).globalFetch = some (FetchFun.wrapped g)
    ∧ unpatchFetch (patchFetch (patchFetch m)) = m
    ∧ unpatchFetch m = m := by
  obtain ⟨mg, mo, mp⟩ := m
  have hg' : mg = some g := hg
  have hp' : mp = false := hp
  have ho' : mo = none := ho
  subst hg'
  subst hp'
  subst ho'
  exact ⟨rfl, rfl, rfl, rfl⟩

/-- Witness for C7 at a clean module state holding a base fetch. -/
theorem patchFetch_once_unpatch_exact_w :
    patchFetch (patchFetch ⟨some (FetchFun.base 0), none, false⟩)
      = patchFetch ⟨some (FetchFun.base 0), none, false⟩
    ∧ (patchFetch ⟨some (FetchFun.base 0), none, false⟩).globalFetch
      = some (FetchFun.wrapped (FetchFun.base 0))
    ∧ unpatchFetch (patchFetch (patchFetch ⟨some (FetchFun.base 0), none, false⟩))
      = ⟨some (FetchFun.base 0), none, false⟩
    ∧ unpatchFetch (⟨some (FetchFun.base 0), none, false⟩ : FetchModule)
      = ⟨some (FetchFun.base 0), none, false⟩ :=
  patchFetch_once_unpatch_exact _ _ rfl rfl rfl

/-! ## `init()` singleton behaviour (C9) -/

/-- The module-level singleton slot and `init()`: when an instance exists it
is returned (and the new configuration discarded), otherwise a client is
constructed and stored. -/
def initClient (c : OutboundIQConfig) (rt : Runtime) :
    Option ClientState → ClientState × Option ClientState
  | some inst => (inst, some inst)
  | none => (mkClient c rt, some (mkClient c rt))

/-- C9: `init(c1)` then `init(c2)` returns the same instance both times and
leaves the singleton slot unchanged (`c2` is discarded, no new client is
constructed), and that instance's resolved configuration is `c1` merged with
the documented defaults. -/
theorem init_returns_existing_instance (c1 c2 : OutboundIQConfig)
    (rt rt2 : Runtime) :
    (initClient c2 rt2 (initClient c1 rt none).2).1 = (initClient c1 rt none).1
    ∧ (initClient c2 rt2 (initClient c1 rt none).2).2 = (initClient c1 rt none).2
    ∧ (initClient c1 rt none).1.config.endpoint = c1.endpoint.getD DEFAULT_ENDPOINT
    ∧ (initClient c1 rt none).1.config.debug = c1.debug.getD false
    ∧ (initClient c1 rt none).1.config.batchSize = c1.batchSize.getD 10
    ∧ (initClient c1 rt none).1.config.flushInterval = c1.flushInterval.getD 5000
    ∧ (initClient c1 rt none).1.config.timeout = c1.timeout.getD 5000
    ∧ (initClient c1 rt none).1.config.ignorePatterns = c1.ignorePatterns.getD []
    ∧ (initClient c1 rt none).1.config.autoTrack = c1.autoTrack.getD true
    ∧ (initClient c1 rt none).1.config.apiKey = c1.apiKey :=
  ⟨rfl, rfl, rfl, rfl, rfl, rfl, rfl, rfl, rfl, rfl⟩

/-! ## Explicit `null` user-context override keeps the ambient context (C10) -/

/-- C10: when the ambient context is set and a `track()` call carries an
explicit `userContext: null`, the completed record's context equals the
ambient one (`??` treats `null` as missing), and that record is enqueued by
`track()` (it ends up in the queue or, after an auto-flush, in the in-flight
batch). -/
theorem track_null_override_keeps_ambient (s : ClientState) (inp : TrackInput)
    (newId newTs : String) (u : UserContext)
    (hamb : s.currentUserContext = some u)
    (hnull : inp.userContext = JsOpt.null)
    (hig : shouldIgnore inp.url s.config.ignorePatterns = false)
    (hself : trackSelfFilter inp.url = false) :
    (completeCall inp newId newTs s.currentUserContext).userContext = some u
    ∧ completeCall inp newId newTs s.currentUserContext
        ∈ allRecords (trackStep s inp newId newTs) := by
  have h1 : (completeCall inp newId newTs s.currentUserContext).userContext = some u := by
    unfold completeCall
    simp [JsOpt.coalesce, hnull, hamb]
  refine ⟨h1, ?_⟩
  unfold trackStep
  rw [hig, hself]
  simp only [Bool.false_eq_true, if_false]
  have hmem1 : completeCall inp newId newTs s.currentUserContext
      ∈ allRecords
        { s with queue := s.queue ++ [completeCall inp newId newTs s.currentUserContext] } := by
    unfold allRecords
    refine List.mem_append.mpr (Or.inl ?_)
    exact List.mem_append.mpr (Or.inr (List.mem_singleton.mpr rfl))
  split
  · exact allRecords_flushStart_mem.mpr hmem1
  · exact hmem1

/-- Witness for C10: ambient context `u`, explicit `null` override, accepted
URL. -/
theorem track_null_override_keeps_ambient_w :
    (completeCall
        { method := "GET", url := "https://example.com", statusCode := 200,
          duration := 0, userContext := JsOpt.null }
        "i" "t"
        (setUserContext (mkClient { apiKey := "k" } Runtime.node)
            (some ⟨"u"⟩)).currentUserContext).userContext = some ⟨"u"⟩
    ∧ completeCall
        { method := "GET", url := "https://example.com", statusCode := 200,
          duration := 0, userContext := JsOpt.null }
        "i" "t"
        (setUserContext (mkClient { apiKey := "k" } Runtime.node)
            (some ⟨"u"⟩)).currentUserContext
      ∈ allRecords
          (trackStep
            (setUserContext (mkClient { apiKey := "k" } Runtime.node) (some ⟨"u"⟩))
            { method := "GET", url := "https://example.com", statusCode := 200,
              duration := 0, userContext := JsOpt.null }
            "i" "t") :=
  track_null_override_keeps_ambient _ _ "i" "t" ⟨"u"⟩ rfl rfl (by decide) (by decide)

end OutboundIQ
